import Mathlib

/-!
Verification development for the pulumi-rollback tool.

The Go sources are shallowly embedded: the external deployment backend
(the Pulumi automation API) is modelled by a record of operation oracles,
each a function of the trace of backend calls made so far, returning
either a result or an error string (Go `error`).  The orchestration
functions of `pkg/rollback/rollback.go`, the pure history helpers of
`pkg/history`, and the CLI command `cmd/pulumi-rollback/to.go` are
translated line by line into trace- and output-accumulating Lean
functions, and the claimed properties are proved about those functions.

Modelling conventions:
- Go `error` values are strings; `fmt.Errorf("...: %w", err)` becomes
  string concatenation of the wrap text with the wrapped error.
- `fmt.Fprintf(opts.Output, ...)` / `fmt.Println(...)` append one entry
  to an `output : List String` sink (formatting approximated; timestamps
  and numeric padding are irrelevant to every property proved here).
- A `json.RawMessage` document is modelled by `JsonDoc` at exactly the
  granularity the code inspects: unmarshalling into a Go map succeeds
  for a JSON object (and JSON null) and fails otherwise, including for
  the empty document.
- The nil-default branches for `opts.Output` / `opts.Operator` select
  the ambient backend; the model always passes the backend explicitly.
-/

namespace PulumiRollback

/-- Go `error` values, modelled as their message strings. -/
abbrev GoErr := String

/-- A raw JSON document (`json.RawMessage`), at the level of detail the
code inspects when unmarshalling into `map[string]interface` values:
only whether it is an object, null, some other valid JSON value, or
not valid JSON at all (the empty document included). -/
inductive JsonDoc where
  | object (fields : List (String × String))
  | nullDoc
  | nonObject
  | invalid
  deriving DecidableEq, Repr

/-- Model of `json.Unmarshal(data, &state)` for `state : map[string]interface`:
succeeds on a JSON object (and on JSON null, which leaves the map nil),
fails otherwise. -/
def jsonUnmarshalMap : JsonDoc → Except GoErr Unit
  | .object _ => .ok ()
  | .nullDoc => .ok ()
  | .nonObject => .error "json: cannot unmarshal value into map"
  | .invalid => .error "unexpected end of JSON input"

/-- Model of `apitype.UntypedDeployment`: a version tag plus the raw serialized
deployment document. -/
structure UntypedDeployment where
  version : Int
  deployment : JsonDoc
  deriving DecidableEq, Repr

/-- Model of `auto.UpdateSummary`, the per-deployment history record.  The
`StartTime` / `EndTime` string fields are omitted: the embedded code
only parses them for display and no property mentions them. -/
structure UpdateSummary where
  version : Int
  kind : String
  result : String
  message : String
  resourceChanges : Option (List (String × Int))
  deriving DecidableEq, Repr

/-- Model of `auto.PreviewResult`: change summary (a possibly-nil map from
operation type to count, keys modelled as strings) plus captured
stdout / stderr. -/
structure PreviewResult where
  changeSummary : Option (List (String × Int))
  stdOut : String
  stdErr : String
  deriving DecidableEq, Repr

/-- Model of `auto.UpResult`: the embedded code reads only
`result.Summary.ResourceChanges` (possibly nil) and the captured
stdout / stderr. -/
structure UpResult where
  resourceChanges : Option (List (String × Int))
  stdOut : String
  stdErr : String
  deriving DecidableEq, Repr

/-- One call made against the external backend.  `Import` records the
state document passed to it, so that traces distinguish the
target import from the restore import. -/
inductive BackendCall where
  | SelectStack
  | Export
  | Import (state : UntypedDeployment)
  | History
  | Preview
  | Refresh
  | Up
  deriving DecidableEq, Repr

/-- True exactly on `Import` calls. -/
def isImportCall : BackendCall → Bool
  | .Import _ => true
  | _ => false

/-- True exactly on the mutating backend calls: `Import`, `Refresh`,
`Up`.  `SelectStack`, `Export`, `History` and `Preview` are reads. -/
def isMutatingCall : BackendCall → Bool
  | .Import _ => true
  | .Refresh => true
  | .Up => true
  | _ => false

/-- Behaviour of one stack handle (the `StackOperator` /
`RollbackStack` seam of `pkg/rollback`): the outcome of each operation may
depend on the trace of backend calls already made, which lets a single
record describe backends that, e.g., accept the first `Import` and
reject the second. -/
structure StackBehavior where
  SelectStack : List BackendCall → Except GoErr Unit
  Export : List BackendCall → Except GoErr UntypedDeployment
  Import : List BackendCall → UntypedDeployment → Except GoErr Unit
  History : List BackendCall → Except GoErr (List UpdateSummary)
  Preview : List BackendCall → Except GoErr PreviewResult
  Refresh : List BackendCall → Except GoErr Unit
  Up : List BackendCall → Except GoErr UpResult

/-- Model of `RollbackResult` from `pkg/rollback/rollback.go`. -/
structure RollbackResult where
  success : Bool
  message : String
  resourceChanges : List (String × Int)
  stdout : String
  stderr : String
  deriving DecidableEq, Repr

instance {ε α : Type} [DecidableEq ε] [DecidableEq α] : DecidableEq (Except ε α) := fun x y =>
  match x, y with
  | .ok a, .ok b => if h : a = b then isTrue (by rw [h]) else isFalse (by simp [h])
  | .error a, .error b => if h : a = b then isTrue (by rw [h]) else isFalse (by simp [h])
  | .ok _, .error _ => isFalse (by simp)
  | .error _, .ok _ => isFalse (by simp)

/-- Outcome of running one orchestration flow: the Go return value,
the full trace of backend calls made, and the lines written to the
output sink. -/
structure FlowOut where
  result : Except GoErr RollbackResult
  trace : List BackendCall
  output : List String
  deriving DecidableEq, Repr

/-- Translation of `VersionExistsInHistory` from rollback.go: linear scan for a
record whose `Version` equals the requested version. -/
def VersionExistsInHistory (history : List UpdateSummary) (version : Int) : Bool :=
  history.any fun update => update.version == version

/-- Translation of `ValidateDeployment` from rollback.go: the deployment document must
unmarshal into a generic map. -/
def ValidateDeployment (deployment : UntypedDeployment) : Except GoErr Unit :=
  jsonUnmarshalMap deployment.deployment

/-- Translation of `convertOpTypeChangeSummary` from rollback.go: nil map becomes the
empty map, otherwise the entries are copied (key conversion
`OpType → string` is identity in the model). -/
def convertOpTypeChangeSummary : Option (List (String × Int)) → List (String × Int)
  | none => []
  | some summary => summary

/-- Translation of `GetCheckpointForVersion` from rollback.go, given the trace made so
far by the caller.  Returns the Go result together with the calls this
function itself makes.  Faithful to the source: after confirming the
version exists in history it EXPORTS THE CURRENT STATE and returns
that (the source comments call this a noted limitation: the Pulumi API
does not directly expose historical checkpoints). -/
def GetCheckpointForVersion (b : StackBehavior) (tr : List BackendCall) (version : Int) :
    Except GoErr UntypedDeployment × List BackendCall :=
  match b.History tr with
  | .error e => (.error ("failed to get history: " ++ e), [.History])
  | .ok history =>
    if VersionExistsInHistory history version then
      match b.Export (tr ++ [.History]) with
      | .error e => (.error ("failed to export deployment: " ++ e), [.History, .Export])
      | .ok deployment =>
        match ValidateDeployment deployment with
        | .error e => (.error ("failed to parse deployment: " ++ e), [.History, .Export])
        | .ok _ => (.ok deployment, [.History, .Export])
    else
      (.error ("version " ++ toString version ++ " not found in history"), [.History])

/-- Translation of `PreviewRollback` from rollback.go: select, export current state,
fetch target checkpoint, temporarily apply it, preview, then always
restore the exported state; a restore failure is only a warning on the
output sink. -/
def PreviewRollback (b : StackBehavior) (targetVersion : Int) : FlowOut :=
  match b.SelectStack [] with
  | .error e => ⟨.error ("failed to select stack: " ++ e), [.SelectStack], []⟩
  | .ok _ =>
    match b.Export [BackendCall.SelectStack] with
    | .error e =>
      ⟨.error ("failed to export current state: " ++ e), [.SelectStack, .Export], []⟩
    | .ok currentState =>
      match GetCheckpointForVersion b [BackendCall.SelectStack, BackendCall.Export] targetVersion with
      | (.error e, calls) =>
        ⟨.error ("failed to get checkpoint for version " ++ toString targetVersion ++ ": " ++ e),
          [BackendCall.SelectStack, BackendCall.Export] ++ calls, []⟩
      | (.ok targetCheckpoint, calls) =>
        match b.Import ([BackendCall.SelectStack, BackendCall.Export] ++ calls) targetCheckpoint with
        | .error e =>
          ⟨.error ("failed to import target state: " ++ e),
            ([BackendCall.SelectStack, BackendCall.Export] ++ calls) ++ [.Import targetCheckpoint], []⟩
        | .ok _ =>
          let tr4 := ([BackendCall.SelectStack, BackendCall.Export] ++ calls)
            ++ [BackendCall.Import targetCheckpoint]
          let previewRes := b.Preview tr4
          let restoreRes := b.Import (tr4 ++ [BackendCall.Preview]) currentState
          let tr6 := (tr4 ++ [BackendCall.Preview]) ++ [BackendCall.Import currentState]
          let warn : List String :=
            match restoreRes with
            | .error re => ["Warning: failed to restore current state: " ++ re]
            | .ok _ => []
          match previewRes with
          | .error e => ⟨.error ("preview failed: " ++ e), tr6, warn⟩
          | .ok result =>
            ⟨.ok { success := true
                   message := "Preview of rollback to version " ++ toString targetVersion ++ " completed"
                   resourceChanges := convertOpTypeChangeSummary result.changeSummary
                   stdout := result.stdOut
                   stderr := result.stdErr },
              tr6, warn⟩

/-- Translation of `ExecuteRollback` from rollback.go: select, fetch target
checkpoint, apply it for real, refresh, then `up`; no compensating
restore on any path. -/
def ExecuteRollback (b : StackBehavior) (targetVersion : Int) : FlowOut :=
  match b.SelectStack [] with
  | .error e => ⟨.error ("failed to select stack: " ++ e), [.SelectStack], []⟩
  | .ok _ =>
    match GetCheckpointForVersion b [BackendCall.SelectStack] targetVersion with
    | (.error e, calls) =>
      ⟨.error ("failed to get checkpoint for version " ++ toString targetVersion ++ ": " ++ e),
        [BackendCall.SelectStack] ++ calls, []⟩
    | (.ok targetCheckpoint, calls) =>
      match b.Import ([BackendCall.SelectStack] ++ calls) targetCheckpoint with
      | .error e =>
        ⟨.error ("failed to import target state: " ++ e),
          ([BackendCall.SelectStack] ++ calls) ++ [.Import targetCheckpoint], []⟩
      | .ok _ =>
        let tr3 := ([BackendCall.SelectStack] ++ calls) ++ [BackendCall.Import targetCheckpoint]
        match b.Refresh tr3 with
        | .error e =>
          ⟨.error ("refresh failed: " ++ e), tr3 ++ [.Refresh],
            ["Refreshing stack to reconcile with target state..."]⟩
        | .ok _ =>
          match b.Up (tr3 ++ [BackendCall.Refresh]) with
          | .error e =>
            ⟨.error ("rollback failed: " ++ e), (tr3 ++ [BackendCall.Refresh]) ++ [.Up],
              ["Refreshing stack to reconcile with target state...",
               "Applying rollback changes..."]⟩
          | .ok result =>
            ⟨.ok { success := true
                   message := "Successfully rolled back to version " ++ toString targetVersion
                   resourceChanges :=
                     match result.resourceChanges with
                     | none => []
                     | some changes => changes
                   stdout := result.stdOut
                   stderr := result.stdErr },
              (tr3 ++ [BackendCall.Refresh]) ++ [.Up],
              ["Refreshing stack to reconcile with target state...",
               "Applying rollback changes..."]⟩

/-- Model of `UpdateInfo` from `pkg/history`: the converted history record.
Timestamp fields omitted as in `UpdateSummary`. -/
structure UpdateInfo where
  version : Int
  kind : String
  result : String
  message : String
  resourceChanges : List (String × Int)
  deriving DecidableEq, Repr

/-- Translation of `ConvertUpdates` from `pkg/history`: field-by-field conversion of
`auto.UpdateSummary` records; a nil resource-change map becomes the
empty map. -/
def ConvertUpdates (history : List UpdateSummary) : List UpdateInfo :=
  history.map fun update =>
    { version := update.version
      kind := update.kind
      result := update.result
      message := update.message
      resourceChanges :=
        match update.resourceChanges with
        | none => []
        | some changes => changes }

/-- Translation of `FindUpdateByVersion` from `pkg/history`: first record whose
version matches, else a not-found error. -/
def FindUpdateByVersion : List UpdateInfo → Int → Except GoErr UpdateInfo
  | [], version => .error ("version " ++ toString version ++ " not found in stack history")
  | update :: rest, version =>
    if update.version == version then .ok update else FindUpdateByVersion rest version

/-- Translation of `GetLatestVersionFromHistory` from `pkg/history`: the version of
the first record (history is most-recent-first), or an error on an
empty history. -/
def GetLatestVersionFromHistory (history : List UpdateInfo) (stackName : String) :
    Except GoErr Int :=
  match history with
  | [] => .error ("no deployment history found for stack " ++ stackName)
  | update :: _ => .ok update.version

/-- Behaviour of the `history.StackSelector` seam (select a stack, list
its history), again as trace-dependent oracles. -/
structure HistorySelectorBehavior where
  SelectStack : List BackendCall → Except GoErr Unit
  History : List BackendCall → Except GoErr (List UpdateSummary)

/-- Translation of `GetStackHistoryWithSelector` from `pkg/history`: select the stack,
fetch the full history (pageSize 0, page 0), convert the records.
Returns the Go result plus the backend calls made. -/
def GetStackHistoryWithSelector (hs : HistorySelectorBehavior) (stackName : String)
    (tr : List BackendCall) : Except GoErr (List UpdateInfo) × List BackendCall :=
  match hs.SelectStack tr with
  | .error e =>
    (.error ("failed to select stack " ++ stackName ++ ": " ++ e), [.SelectStack])
  | .ok _ =>
    match hs.History (tr ++ [.SelectStack]) with
    | .error e => (.error ("failed to get stack history: " ++ e), [.SelectStack, .History])
    | .ok history => (.ok (ConvertUpdates history), [.SelectStack, .History])

/-- Translation of `GetUpdateByVersionWithSelector` from `pkg/history`. -/
def GetUpdateByVersionWithSelector (hs : HistorySelectorBehavior) (stackName : String)
    (version : Int) (tr : List BackendCall) : Except GoErr UpdateInfo × List BackendCall :=
  match GetStackHistoryWithSelector hs stackName tr with
  | (.error e, calls) => (.error e, calls)
  | (.ok history, calls) => (FindUpdateByVersion history version, calls)

/-- Translation of `GetLatestVersionWithSelector` from `pkg/history`. -/
def GetLatestVersionWithSelector (hs : HistorySelectorBehavior) (stackName : String)
    (tr : List BackendCall) : Except GoErr Int × List BackendCall :=
  match GetStackHistoryWithSelector hs stackName tr with
  | (.error e, calls) => (.error e, calls)
  | (.ok history, calls) => (GetLatestVersionFromHistory history stackName, calls)

/-- Outcome of the CLI `to` command: its Go error (or nil), the trace
of all backend calls made (history fetches and rollback flow alike),
and the lines printed. -/
structure RunOut where
  result : Except GoErr Unit
  trace : List BackendCall
  output : List String
  deriving DecidableEq, Repr

/-- The tail of `runRollback` past the confirmation prompt: print the
start banner, run `ExecuteRollback`, wrap its error or print its
success message. -/
def runRollbackExec (b : StackBehavior) (rollbackVersion : Int)
    (tr : List BackendCall) (out : List String) : RunOut :=
  let flow := ExecuteRollback b rollbackVersion
  match flow.result with
  | .error e =>
    ⟨.error ("rollback failed: " ++ e), tr ++ flow.trace,
      (out ++ ["Starting rollback..."]) ++ flow.output⟩
  | .ok result =>
    ⟨.ok (), tr ++ flow.trace,
      ((out ++ ["Starting rollback..."]) ++ flow.output) ++ ["✓ " ++ result.message]⟩

/-- Translation of `runRollback` from `cmd/pulumi-rollback/to.go`: validate the target
version exists, fetch the latest version, no-op when the target is
already current, otherwise show the target info, ask for confirmation
(unless skipped) and run the execute flow.  `confirmResponse` models
the stdin read; the per-field info lines and the final resource-change
listing are summarised as single output entries. -/
def runRollback (hs : HistorySelectorBehavior) (b : StackBehavior) (stackName : String)
    (rollbackVersion : Int) (skipConfirm : Bool) (confirmResponse : Except GoErr String) :
    RunOut :=
  match GetUpdateByVersionWithSelector hs stackName rollbackVersion [] with
  | (.error e, calls) =>
    ⟨.error ("failed to find version " ++ toString rollbackVersion ++ ": " ++ e), calls, []⟩
  | (.ok update, calls1) =>
    match GetLatestVersionWithSelector hs stackName calls1 with
    | (.error e, calls2) =>
      ⟨.error ("failed to get latest version: " ++ e), calls1 ++ calls2, []⟩
    | (.ok latest, calls2) =>
      if rollbackVersion == latest then
        ⟨.ok (), calls1 ++ calls2,
          ["Version " ++ toString rollbackVersion
            ++ " is the current version. No rollback needed."]⟩
      else
        let infoOut : List String :=
          ["Rolling back stack " ++ stackName ++ " to version " ++ toString rollbackVersion
             ++ " kind " ++ update.kind ++ " result " ++ update.result,
           "WARNING: This will modify your infrastructure! Current version: "
             ++ toString latest ++ " Target version: " ++ toString rollbackVersion]
        if skipConfirm then
          runRollbackExec b rollbackVersion (calls1 ++ calls2) infoOut
        else
          match confirmResponse with
          | .error e =>
            ⟨.error ("failed to read response: " ++ e), calls1 ++ calls2, infoOut⟩
          | .ok response =>
            let response := response.toLower.trim
            if response != "y" && response != "yes" then
              ⟨.ok (), calls1 ++ calls2, infoOut ++ ["Rollback cancelled."]⟩
            else
              runRollbackExec b rollbackVersion (calls1 ++ calls2) infoOut

/-! ## Shared helper lemmas -/

/-- The calls made by `GetCheckpointForVersion` are `[History]` (early
failure) or `[History, Export]`. -/
theorem getCheckpointForVersion_snd (b : StackBehavior) (tr : List BackendCall) (v : Int) :
    (GetCheckpointForVersion b tr v).2 = [BackendCall.History] ∨
    (GetCheckpointForVersion b tr v).2 = [BackendCall.History, BackendCall.Export] := by
  unfold GetCheckpointForVersion
  rcases b.History tr with e | history
  · simp
  · by_cases hV : VersionExistsInHistory history v
    · simp only [hV, if_true]
      rcases b.Export (tr ++ [BackendCall.History]) with e | d
      · simp
      · rcases hVal : ValidateDeployment d with e | u <;> simp [hVal]
    · simp [hV]

/-- The calls made by `GetStackHistoryWithSelector` are `[SelectStack]`
or `[SelectStack, History]`. -/
theorem getStackHistoryWithSelector_snd (hs : HistorySelectorBehavior) (name : String)
    (tr : List BackendCall) :
    (GetStackHistoryWithSelector hs name tr).2 = [BackendCall.SelectStack] ∨
    (GetStackHistoryWithSelector hs name tr).2 = [BackendCall.SelectStack, BackendCall.History] := by
  unfold GetStackHistoryWithSelector
  rcases hs.SelectStack tr with e | u
  · simp
  · rcases hs.History (tr ++ [BackendCall.SelectStack]) with e | h <;> simp

/-- Lemma: `GetUpdateByVersionWithSelector` makes the same calls as the
underlying history fetch. -/
theorem getUpdateByVersionWithSelector_snd (hs : HistorySelectorBehavior) (name : String)
    (v : Int) (tr : List BackendCall) :
    (GetUpdateByVersionWithSelector hs name v tr).2 = (GetStackHistoryWithSelector hs name tr).2 := by
  unfold GetUpdateByVersionWithSelector
  rcases h : GetStackHistoryWithSelector hs name tr with ⟨r, calls⟩
  rcases r with e | hist <;> simp [h]

/-- Lemma: `GetLatestVersionWithSelector` makes the same calls as the
underlying history fetch. -/
theorem getLatestVersionWithSelector_snd (hs : HistorySelectorBehavior) (name : String)
    (tr : List BackendCall) :
    (GetLatestVersionWithSelector hs name tr).2 = (GetStackHistoryWithSelector hs name tr).2 := by
  unfold GetLatestVersionWithSelector
  rcases h : GetStackHistoryWithSelector hs name tr with ⟨r, calls⟩
  rcases r with e | hist <;> simp [h]

/-- On success `FindUpdateByVersion` returns a record of the history
with the requested version. -/
theorem findUpdateByVersion_ok (h : List UpdateInfo) (v : Int) (u : UpdateInfo)
    (hfind : FindUpdateByVersion h v = .ok u) : u.version = v ∧ u ∈ h := by
  induction h with
  | nil => exact absurd hfind (by simp [FindUpdateByVersion])
  | cons a rest ih =>
    rw [FindUpdateByVersion] at hfind
    by_cases ha : a.version = v
    · simp only [ha, beq_self_eq_true, if_true, Except.ok.injEq] at hfind
      subst hfind
      exact ⟨ha, List.mem_cons_self a rest⟩
    · simp only [beq_iff_eq, ha, if_false] at hfind
      rcases ih hfind with ⟨h1, h2⟩
      exact ⟨h1, List.mem_cons_of_mem a h2⟩

/-- When no record matches, `FindUpdateByVersion` returns the
version-not-found error. -/
theorem findUpdateByVersion_err (h : List UpdateInfo) (v : Int)
    (hnone : ∀ u ∈ h, u.version ≠ v) :
    FindUpdateByVersion h v =
      .error ("version " ++ toString v ++ " not found in stack history") := by
  induction h with
  | nil => rfl
  | cons a rest ih =>
    rw [FindUpdateByVersion]
    have ha : a.version ≠ v := hnone a (List.mem_cons_self a rest)
    simp only [beq_iff_eq, ha, if_false]
    exact ih fun u hu => hnone u (List.mem_cons_of_mem a hu)

/-- When some record matches, `FindUpdateByVersion` succeeds. -/
theorem findUpdateByVersion_mem (h : List UpdateInfo) (v : Int) (u : UpdateInfo)
    (hu : u ∈ h) (hv : u.version = v) : ∃ w, FindUpdateByVersion h v = .ok w := by
  induction h with
  | nil => cases hu
  | cons a rest ih =>
    rw [FindUpdateByVersion]
    by_cases ha : a.version = v
    · exact ⟨a, by simp [ha]⟩
    · simp only [beq_iff_eq, ha, if_false]
      rcases List.mem_cons.mp hu with h1 | h2
      · exact absurd (h1 ▸ hv) ha
      · exact ih h2

/-! ## Claim theorems -/

/-- Concrete backend for the checkpoint-substitution scenario of C1:
the history holds versions 2 (latest) and 1, and the current committed
state of the stack is the version-2 snapshot. -/
def currentOnlyStack : StackBehavior where
  SelectStack := fun _ => .ok ()
  Export := fun _ => .ok ⟨2, .object [("resource", "current-state")]⟩
  Import := fun _ _ => .ok ()
  History := fun _ => .ok [⟨2, "update", "succeeded", "", none⟩,
                           ⟨1, "update", "succeeded", "", none⟩]
  Preview := fun _ => .ok ⟨none, "", ""⟩
  Refresh := fun _ => .ok ()
  Up := fun _ => .ok ⟨none, "", ""⟩

/-- C1: refuted on the code.  Requesting the checkpoint for version 1
returns exactly the value of the current-state `Export` call — the
version-2 snapshot — so `GetCheckpointForVersion` substitutes the
current exported state of the stack for the requested historical version
instead of performing per-version retrieval. -/
theorem getCheckpointForVersion_returns_current_state :
    (GetCheckpointForVersion currentOnlyStack [] 1).1 =
      .ok ⟨2, .object [("resource", "current-state")]⟩ ∧
    currentOnlyStack.Export [BackendCall.History] =
      .ok ⟨2, .object [("resource", "current-state")]⟩ ∧
    (2 : Int) ≠ 1 := by
  refine ⟨rfl, rfl, by decide⟩

/-- C10: on every path, succeeding or failing, `GetCheckpointForVersion`
performs only the read operations `History` and `Export`; it never
calls `Import`, `Refresh` or `Up`, so checkpoint retrieval adds no
mutating backend call. -/
theorem getCheckpointForVersion_only_reads (b : StackBehavior) (tr : List BackendCall) (v : Int) :
    ((GetCheckpointForVersion b tr v).2).all
        (fun c => c == BackendCall.History || c == BackendCall.Export) = true ∧
    ((GetCheckpointForVersion b tr v).2).filter isMutatingCall = [] := by
  rcases getCheckpointForVersion_snd b tr v with h | h <;>
    rw [h] <;> exact ⟨rfl, rfl⟩

/-- C8: `FindUpdateByVersion` succeeds and returns a record of the
history carrying the requested version exactly when some record has
that version; otherwise it fails with the version-not-found error.
`VersionExistsInHistory` decides the same membership condition. -/
theorem findUpdateByVersion_iff (h : List UpdateInfo) (hs : List UpdateSummary) (v : Int) :
    ((∃ u, FindUpdateByVersion h v = .ok u ∧ u.version = v ∧ u ∈ h) ↔
       ∃ u ∈ h, u.version = v) ∧
    ((∀ u ∈ h, u.version ≠ v) →
       FindUpdateByVersion h v =
         .error ("version " ++ toString v ++ " not found in stack history")) ∧
    (VersionExistsInHistory hs v = true ↔ ∃ u ∈ hs, u.version = v) := by
  refine ⟨⟨?_, ?_⟩, findUpdateByVersion_err h v, ?_⟩
  · rintro ⟨u, _, huv, hu⟩
    exact ⟨u, hu, huv⟩
  · rintro ⟨u, hu, huv⟩
    rcases findUpdateByVersion_mem h v u hu huv with ⟨w, hw⟩
    rcases findUpdateByVersion_ok h v w hw with ⟨h1, h2⟩
    exact ⟨w, hw, h1, h2⟩
  · simp [VersionExistsInHistory, List.any_eq_true]

/-- C8 witness: on the history `[version 2, version 1]` the lookup of
version 1 succeeds and the lookup of version 3 fails with the
not-found error. -/
theorem findUpdateByVersion_iff_witness :
    (∃ u, FindUpdateByVersion
        [⟨2, "update", "succeeded", "", []⟩, ⟨1, "update", "succeeded", "", []⟩] 1 = .ok u ∧
        u.version = 1 ∧
        u ∈ [⟨2, "update", "succeeded", "", []⟩, ⟨1, "update", "succeeded", "", []⟩]) ∧
    FindUpdateByVersion
        [⟨2, "update", "succeeded", "", []⟩, ⟨1, "update", "succeeded", "", []⟩] 3 =
      .error ("version " ++ toString (3 : Int) ++ " not found in stack history") ∧
    VersionExistsInHistory [⟨2, "update", "succeeded", "", none⟩] 2 = true := by
  refine ⟨?_, ?_, ?_⟩
  · exact (findUpdateByVersion_iff
      [⟨2, "update", "succeeded", "", []⟩, ⟨1, "update", "succeeded", "", []⟩] [] 1).1.mpr
      ⟨⟨1, "update", "succeeded", "", []⟩, by decide, by decide⟩
  · exact (findUpdateByVersion_iff
      [⟨2, "update", "succeeded", "", []⟩, ⟨1, "update", "succeeded", "", []⟩] [] 3).2.1
      (by decide)
  · exact (findUpdateByVersion_iff [] [⟨2, "update", "succeeded", "", none⟩] 2).2.2.mpr
      ⟨⟨2, "update", "succeeded", "", none⟩, by decide, by decide⟩

/-- C9: for a non-empty history the latest version is the version of
the first record (most-recent-first ordering); the empty history
yields the empty-history error. -/
theorem getLatestVersionFromHistory_spec (h : List UpdateInfo) (name : String) :
    (∀ hne : h ≠ [], GetLatestVersionFromHistory h name = .ok ((h.head hne).version)) ∧
    (h = [] →
      GetLatestVersionFromHistory h name =
        .error ("no deployment history found for stack " ++ name)) := by
  constructor
  · intro hne
    cases h with
    | nil => exact absurd rfl hne
    | cons u rest => rfl
  · intro he
    subst he
    rfl

/-- C9 witness: a concrete two-record history resolves to the version 7 of the
head record, and the empty history fails. -/
theorem getLatestVersionFromHistory_spec_witness :
    GetLatestVersionFromHistory
        [⟨7, "update", "succeeded", "", []⟩, ⟨3, "update", "succeeded", "", []⟩] "dev" =
      .ok ((([⟨7, "update", "succeeded", "", []⟩,
              ⟨3, "update", "succeeded", "", []⟩] : List UpdateInfo).head (by decide)).version) ∧
    GetLatestVersionFromHistory [] "dev" =
      .error ("no deployment history found for stack " ++ "dev") :=
  ⟨(getLatestVersionFromHistory_spec
      [⟨7, "update", "succeeded", "", []⟩, ⟨3, "update", "succeeded", "", []⟩] "dev").1 (by decide),
   (getLatestVersionFromHistory_spec [] "dev").2 rfl⟩

/-- C2: on every execution path of the preview flow on which
the import of the target checkpoint succeeds, `Import` is called exactly
twice — first with the target checkpoint, then with the previously
exported current state — whatever `Preview` and the restore `Import`
then do. -/
theorem previewRollback_imports_twice (b : StackBehavior) (v : Int)
    (cur tgt : UntypedDeployment) (calls : List BackendCall)
    (hsel : b.SelectStack [] = .ok ())
    (hexp : b.Export [BackendCall.SelectStack] = .ok cur)
    (hck : GetCheckpointForVersion b [BackendCall.SelectStack, BackendCall.Export] v =
      (.ok tgt, calls))
    (him : b.Import ([BackendCall.SelectStack, BackendCall.Export] ++ calls) tgt = .ok ()) :
    (PreviewRollback b v).trace.filter isImportCall =
      [BackendCall.Import tgt, BackendCall.Import cur] := by
  have hcalls : calls = [BackendCall.History] ∨
      calls = [BackendCall.History, BackendCall.Export] := by
    have hsnd := getCheckpointForVersion_snd b [BackendCall.SelectStack, BackendCall.Export] v
    rw [hck] at hsnd
    exact hsnd
  unfold PreviewRollback
  simp only [hsel, hexp, hck, him]
  rcases hP : b.Preview (([BackendCall.SelectStack, BackendCall.Export] ++ calls) ++
      [BackendCall.Import tgt]) with e | pr <;>
    rcases hcalls with hc | hc <;> subst hc <;>
      simp [isImportCall]

/-- C4: in the preview flow, when `Preview` succeeds but the restoring
`Import` of the original state fails, the call still returns the
successful preview outcome (success, message, change summary and
captured output taken from the preview result) and the restore failure
only appears as a warning on the output sink. -/
theorem previewRollback_restore_failure_is_warning (b : StackBehavior) (v : Int)
    (cur tgt : UntypedDeployment) (calls : List BackendCall) (pr : PreviewResult) (e : GoErr)
    (hsel : b.SelectStack [] = .ok ())
    (hexp : b.Export [BackendCall.SelectStack] = .ok cur)
    (hck : GetCheckpointForVersion b [BackendCall.SelectStack, BackendCall.Export] v =
      (.ok tgt, calls))
    (him : b.Import ([BackendCall.SelectStack, BackendCall.Export] ++ calls) tgt = .ok ())
    (hprev : b.Preview (([BackendCall.SelectStack, BackendCall.Export] ++ calls) ++
      [BackendCall.Import tgt]) = .ok pr)
    (hrest : b.Import ((([BackendCall.SelectStack, BackendCall.Export] ++ calls) ++
      [BackendCall.Import tgt]) ++ [BackendCall.Preview]) cur = .error e) :
    (PreviewRollback b v).result =
      .ok { success := true
            message := "Preview of rollback to version " ++ toString v ++ " completed"
            resourceChanges := convertOpTypeChangeSummary pr.changeSummary
            stdout := pr.stdOut
            stderr := pr.stdErr } ∧
    (PreviewRollback b v).output = ["Warning: failed to restore current state: " ++ e] := by
  unfold PreviewRollback
  simp only [hsel, hexp, hck, him, hprev, hrest]
  exact ⟨trivial, trivial⟩

/-- C5: in the preview flow, when `Preview` fails the restoring
`Import` is still attempted (the trace records both imports) and the
error returned is the wrapped `Preview` error, whatever the restore
outcome was. -/
theorem previewRollback_preview_error_propagates (b : StackBehavior) (v : Int)
    (cur tgt : UntypedDeployment) (calls : List BackendCall) (e : GoErr)
    (hsel : b.SelectStack [] = .ok ())
    (hexp : b.Export [BackendCall.SelectStack] = .ok cur)
    (hck : GetCheckpointForVersion b [BackendCall.SelectStack, BackendCall.Export] v =
      (.ok tgt, calls))
    (him : b.Import ([BackendCall.SelectStack, BackendCall.Export] ++ calls) tgt = .ok ())
    (hprev : b.Preview (([BackendCall.SelectStack, BackendCall.Export] ++ calls) ++
      [BackendCall.Import tgt]) = .error e) :
    (PreviewRollback b v).result = .error ("preview failed: " ++ e) ∧
    (PreviewRollback b v).trace.filter isImportCall =
      [BackendCall.Import tgt, BackendCall.Import cur] := by
  have hcalls : calls = [BackendCall.History] ∨
      calls = [BackendCall.History, BackendCall.Export] := by
    have hsnd := getCheckpointForVersion_snd b [BackendCall.SelectStack, BackendCall.Export] v
    rw [hck] at hsnd
    exact hsnd
  unfold PreviewRollback
  simp only [hsel, hexp, hck, him, hprev]
  refine ⟨trivial, ?_⟩
  rcases hcalls with hc | hc <;> subst hc <;> simp [isImportCall]

/-- C6: in the preview flow every failure before the target import
succeeds — stack selection, export of current state, or any failure
inside checkpoint retrieval (history fetch, version-not-found, parse) —
aborts immediately with the wrapped error and without a single
mutating backend call, and each failure point returns its specific
wrapped error. -/
theorem previewRollback_early_failure_no_mutation (b : StackBehavior) (v : Int)
    (h : (∃ e, b.SelectStack [] = .error e) ∨
         (b.SelectStack [] = .ok () ∧ ∃ e, b.Export [BackendCall.SelectStack] = .error e) ∨
         (b.SelectStack [] = .ok () ∧ (∃ cur, b.Export [BackendCall.SelectStack] = .ok cur) ∧
           ∃ e calls,
             GetCheckpointForVersion b [BackendCall.SelectStack, BackendCall.Export] v =
               (.error e, calls))) :
    (PreviewRollback b v).trace.filter isMutatingCall = [] ∧
    (∀ e, b.SelectStack [] = .error e →
       (PreviewRollback b v).result = .error ("failed to select stack: " ++ e)) ∧
    (∀ e, b.SelectStack [] = .ok () → b.Export [BackendCall.SelectStack] = .error e →
       (PreviewRollback b v).result = .error ("failed to export current state: " ++ e)) ∧
    (∀ e calls cur, b.SelectStack [] = .ok () → b.Export [BackendCall.SelectStack] = .ok cur →
       GetCheckpointForVersion b [BackendCall.SelectStack, BackendCall.Export] v =
         (.error e, calls) →
       (PreviewRollback b v).result =
         .error ("failed to get checkpoint for version " ++ toString v ++ ": " ++ e)) := by
  refine ⟨?_, ?_, ?_, ?_⟩
  · rcases h with ⟨e, hse⟩ | ⟨hok, e, hex⟩ | ⟨hok, ⟨cur, hex⟩, e, calls, hckerr⟩
    · unfold PreviewRollback
      simp only [hse]
      rfl
    · unfold PreviewRollback
      simp only [hok, hex]
      rfl
    · have hcalls : calls = [BackendCall.History] ∨
          calls = [BackendCall.History, BackendCall.Export] := by
        have hsnd := getCheckpointForVersion_snd b [BackendCall.SelectStack, BackendCall.Export] v
        rw [hckerr] at hsnd
        exact hsnd
      unfold PreviewRollback
      simp only [hok, hex, hckerr]
      rcases hcalls with hc | hc <;> subst hc <;> rfl
  · intro e hse
    unfold PreviewRollback
    simp only [hse]
  · intro e hok hex
    unfold PreviewRollback
    simp only [hok, hex]
  · intro e calls cur hok hex hckerr
    unfold PreviewRollback
    simp only [hok, hex, hckerr]

/-- Check that the character list `needle` occurs at the head of the
character list `hay`. -/
def charsHaveHead : List Char → List Char → Bool
  | [], _ => true
  | _ :: _, [] => false
  | n :: ns, c :: cs => n == c && charsHaveHead ns cs

/-- Check that the character list `needle` occurs contiguously
anywhere in `hay`. -/
def charsContain (needle : List Char) : List Char → Bool
  | [] => charsHaveHead needle []
  | c :: cs => charsHaveHead needle (c :: cs) || charsContain needle cs

/-- Whether `needle` occurs in `hay` as a contiguous substring. -/
def stringMentions (hay needle : String) : Bool :=
  charsContain needle.data hay.data

/-- Concrete backend for the C3 scenario: target import succeeds and
`Refresh` then fails. -/
def refreshFailingStack : StackBehavior where
  SelectStack := fun _ => .ok ()
  Export := fun _ => .ok ⟨2, .object [("resource", "state")]⟩
  Import := fun _ _ => .ok ()
  History := fun _ => .ok [⟨2, "update", "succeeded", "", none⟩,
                           ⟨1, "update", "succeeded", "", none⟩]
  Preview := fun _ => .ok ⟨none, "", ""⟩
  Refresh := fun _ => .error "boom"
  Up := fun _ => .ok ⟨none, "", ""⟩

/-- C3 counterexample: with `Refresh` failing after a successful target
import, `ExecuteRollback` returns exactly the plainly wrapped operation
error "refresh failed: boom", and neither the error nor any output
line carries manual-operator-intervention language (the word "manual"
occurs nowhere), refuting the claim that the error is reported as a
condition requiring manual operator intervention. -/
theorem executeRollback_error_lacks_intervention_language :
    (ExecuteRollback refreshFailingStack 1).result = .error "refresh failed: boom" ∧
    stringMentions "refresh failed: boom" "manual" = false ∧
    ((ExecuteRollback refreshFailingStack 1).output.all
      fun line => !(stringMentions line "manual")) = true := by
  refine ⟨rfl, by decide, by decide⟩

/-- C3 (amended): once the target import succeeds in the execute flow,
no compensating restore is ever performed — the target import is the
only `Import` in the trace — and neither `Refresh` nor `Up` is ever
retried; a `Refresh` failure makes the flow return the wrapped error
"refresh failed: …" immediately and an `Up` failure the wrapped error
"rollback failed: …", with no manual-intervention messaging beyond
that wrap. -/
theorem executeRollback_forward_only (b : StackBehavior) (v : Int)
    (tgt : UntypedDeployment) (calls : List BackendCall)
    (hsel : b.SelectStack [] = .ok ())
    (hck : GetCheckpointForVersion b [BackendCall.SelectStack] v = (.ok tgt, calls))
    (him : b.Import ([BackendCall.SelectStack] ++ calls) tgt = .ok ()) :
    (ExecuteRollback b v).trace.filter isImportCall = [BackendCall.Import tgt] ∧
    ((ExecuteRollback b v).trace.filter (fun c => c == BackendCall.Refresh)).length ≤ 1 ∧
    ((ExecuteRollback b v).trace.filter (fun c => c == BackendCall.Up)).length ≤ 1 ∧
    (∀ e, b.Refresh (([BackendCall.SelectStack] ++ calls) ++ [BackendCall.Import tgt]) =
        .error e →
      (ExecuteRollback b v).result = .error ("refresh failed: " ++ e)) ∧
    (∀ e, b.Refresh (([BackendCall.SelectStack] ++ calls) ++ [BackendCall.Import tgt]) =
        .ok () →
      b.Up ((([BackendCall.SelectStack] ++ calls) ++ [BackendCall.Import tgt]) ++
        [BackendCall.Refresh]) = .error e →
      (ExecuteRollback b v).result = .error ("rollback failed: " ++ e)) := by
  have hcalls : calls = [BackendCall.History] ∨
      calls = [BackendCall.History, BackendCall.Export] := by
    have hsnd := getCheckpointForVersion_snd b [BackendCall.SelectStack] v
    rw [hck] at hsnd
    exact hsnd
  refine ⟨?_, ?_, ?_, ?_, ?_⟩
  · unfold ExecuteRollback
    simp only [hsel, hck, him]
    rcases hR : b.Refresh (([BackendCall.SelectStack] ++ calls) ++ [BackendCall.Import tgt])
      with e | u
    · rcases hcalls with hc | hc <;> subst hc <;> simp [isImportCall]
    · rcases hU : b.Up ((([BackendCall.SelectStack] ++ calls) ++ [BackendCall.Import tgt]) ++
        [BackendCall.Refresh]) with e | r <;>
        rcases hcalls with hc | hc <;> subst hc <;> simp [isImportCall]
  · unfold ExecuteRollback
    simp only [hsel, hck, him]
    rcases hR : b.Refresh (([BackendCall.SelectStack] ++ calls) ++ [BackendCall.Import tgt])
      with e | u
    · rcases hcalls with hc | hc <;> subst hc <;> simp
    · rcases hU : b.Up ((([BackendCall.SelectStack] ++ calls) ++ [BackendCall.Import tgt]) ++
        [BackendCall.Refresh]) with e | r <;>
        rcases hcalls with hc | hc <;> subst hc <;> simp
  · unfold ExecuteRollback
    simp only [hsel, hck, him]
    rcases hR : b.Refresh (([BackendCall.SelectStack] ++ calls) ++ [BackendCall.Import tgt])
      with e | u
    · rcases hcalls with hc | hc <;> subst hc <;> simp
    · rcases hU : b.Up ((([BackendCall.SelectStack] ++ calls) ++ [BackendCall.Import tgt]) ++
        [BackendCall.Refresh]) with e | r <;>
        rcases hcalls with hc | hc <;> subst hc <;> simp
  · intro e hR
    unfold ExecuteRollback
    simp only [hsel, hck, him, hR]
  · intro e hR hU
    unfold ExecuteRollback
    simp only [hsel, hck, him, hR, hU]

/-- C7: when the requested target version equals the latest version
resolved from history, `runRollback` is a no-op evaluated before the
execute flow: it returns without error, prints exactly the
informational message, and makes zero mutating backend calls (no
`Import`, `Refresh` or `Up`), whatever the rollback backend `b`, the
confirmation settings and the stdin response are. -/
theorem runRollback_noop_when_target_is_latest (hs : HistorySelectorBehavior)
    (b : StackBehavior) (stackName : String) (v : Int) (skipConfirm : Bool)
    (resp : Except GoErr String) (u : UpdateInfo) (calls1 calls2 : List BackendCall)
    (h1 : GetUpdateByVersionWithSelector hs stackName v [] = (.ok u, calls1))
    (h2 : GetLatestVersionWithSelector hs stackName calls1 = (.ok v, calls2)) :
    (runRollback hs b stackName v skipConfirm resp).result = .ok () ∧
    (runRollback hs b stackName v skipConfirm resp).output =
      ["Version " ++ toString v ++ " is the current version. No rollback needed."] ∧
    (runRollback hs b stackName v skipConfirm resp).trace.filter isMutatingCall = [] := by
  have hc1 : calls1 = (GetStackHistoryWithSelector hs stackName []).2 := by
    have hsnd := getUpdateByVersionWithSelector_snd hs stackName v []
    rw [h1] at hsnd
    exact hsnd
  have hc2 : calls2 = (GetStackHistoryWithSelector hs stackName calls1).2 := by
    have hsnd := getLatestVersionWithSelector_snd hs stackName calls1
    rw [h2] at hsnd
    exact hsnd
  have hmut1 : calls1.filter isMutatingCall = [] := by
    rcases getStackHistoryWithSelector_snd hs stackName [] with hh | hh <;>
      rw [hc1, hh] <;> rfl
  have hmut2 : calls2.filter isMutatingCall = [] := by
    rcases getStackHistoryWithSelector_snd hs stackName calls1 with hh | hh <;>
      rw [hc2, hh] <;> rfl
  unfold runRollback
  simp only [h1, h2, beq_self_eq_true, if_true]
  exact ⟨trivial, trivial, by simp [List.filter_append, hmut1, hmut2]⟩

/-! ## Concrete backends for the witnesses -/

/-- Happy-path preview backend: history holds versions 2 and 1, the
first export (before the history fetch) yields the current version-2
snapshot, the export inside checkpoint retrieval yields the version-1
document, imports always succeed and preview reports one create. -/
def previewHappyStack : StackBehavior where
  SelectStack := fun _ => .ok ()
  Export := fun tr =>
    if tr.contains BackendCall.History then .ok ⟨1, .object [("resource", "old")]⟩
    else .ok ⟨2, .object [("resource", "new")]⟩
  Import := fun _ _ => .ok ()
  History := fun _ => .ok [⟨2, "update", "succeeded", "", none⟩,
                           ⟨1, "update", "succeeded", "", none⟩]
  Preview := fun _ => .ok ⟨some [("create", 1)], "preview output", ""⟩
  Refresh := fun _ => .ok ()
  Up := fun _ => .ok ⟨none, "", ""⟩

/-- Preview backend whose restore `Import` (the one issued after the
`Preview` call) fails. -/
def previewRestoreFailStack : StackBehavior where
  SelectStack := fun _ => .ok ()
  Export := fun _ => .ok ⟨2, .object [("resource", "state")]⟩
  Import := fun tr _ =>
    if tr.contains BackendCall.Preview then .error "restore-denied" else .ok ()
  History := fun _ => .ok [⟨2, "update", "succeeded", "", none⟩,
                           ⟨1, "update", "succeeded", "", none⟩]
  Preview := fun _ => .ok ⟨some [("create", 1)], "preview output", ""⟩
  Refresh := fun _ => .ok ()
  Up := fun _ => .ok ⟨none, "", ""⟩

/-- Preview backend whose `Preview` call fails. -/
def previewFailStack : StackBehavior where
  SelectStack := fun _ => .ok ()
  Export := fun _ => .ok ⟨2, .object [("resource", "state")]⟩
  Import := fun _ _ => .ok ()
  History := fun _ => .ok [⟨2, "update", "succeeded", "", none⟩,
                           ⟨1, "update", "succeeded", "", none⟩]
  Preview := fun _ => .error "preview-blew-up"
  Refresh := fun _ => .ok ()
  Up := fun _ => .ok ⟨none, "", ""⟩

/-- Backend whose history contains only version 1, for the
version-not-found scenario. -/
def versionMissingStack : StackBehavior where
  SelectStack := fun _ => .ok ()
  Export := fun _ => .ok ⟨1, .object [("resource", "state")]⟩
  Import := fun _ _ => .ok ()
  History := fun _ => .ok [⟨1, "update", "succeeded", "", none⟩]
  Preview := fun _ => .ok ⟨none, "", ""⟩
  Refresh := fun _ => .ok ()
  Up := fun _ => .ok ⟨none, "", ""⟩

/-- History selector whose stack history is versions 5, 2, 1
(most recent first). -/
def latestFiveSelector : HistorySelectorBehavior where
  SelectStack := fun _ => .ok ()
  History := fun _ => .ok [⟨5, "update", "succeeded", "", none⟩,
                           ⟨2, "update", "succeeded", "", none⟩,
                           ⟨1, "update", "succeeded", "", none⟩]

/-- Idle rollback backend for the C7 witness; it must never be
reached. -/
def idleStack : StackBehavior where
  SelectStack := fun _ => .ok ()
  Export := fun _ => .ok ⟨5, .object []⟩
  Import := fun _ _ => .ok ()
  History := fun _ => .ok []
  Preview := fun _ => .ok ⟨none, "", ""⟩
  Refresh := fun _ => .ok ()
  Up := fun _ => .ok ⟨none, "", ""⟩

/-! ## Witnesses -/

/-- C2 witness: on the happy-path backend with target version 1, the
trace records exactly the target import followed by the restore of the
current state. -/
theorem previewRollback_imports_twice_witness :
    (PreviewRollback previewHappyStack 1).trace.filter isImportCall =
      [BackendCall.Import ⟨1, .object [("resource", "old")]⟩,
       BackendCall.Import ⟨2, .object [("resource", "new")]⟩] :=
  previewRollback_imports_twice previewHappyStack 1
    ⟨2, .object [("resource", "new")]⟩ ⟨1, .object [("resource", "old")]⟩
    [BackendCall.History, BackendCall.Export] rfl (by decide) (by decide) rfl

/-- C4 witness: preview succeeds with one create and the
restore import fails; the outcome is still the success result with the create
recorded, and the restore failure appears only as the warning line. -/
theorem previewRollback_restore_failure_is_warning_witness :
    (PreviewRollback previewRestoreFailStack 1).result =
      .ok { success := true
            message := "Preview of rollback to version " ++ toString (1 : Int) ++ " completed"
            resourceChanges :=
              convertOpTypeChangeSummary (some [("create", 1)])
            stdout := "preview output"
            stderr := "" } ∧
    (PreviewRollback previewRestoreFailStack 1).output =
      ["Warning: failed to restore current state: " ++ "restore-denied"] :=
  previewRollback_restore_failure_is_warning previewRestoreFailStack 1
    ⟨2, .object [("resource", "state")]⟩ ⟨2, .object [("resource", "state")]⟩
    [BackendCall.History, BackendCall.Export]
    ⟨some [("create", 1)], "preview output", ""⟩ "restore-denied"
    rfl (by decide) (by decide) (by decide) rfl (by decide)

/-- C5 witness: preview fails on the concrete backend; the wrapped
preview error is returned and both imports (target then restore) are
still in the trace. -/
theorem previewRollback_preview_error_propagates_witness :
    (PreviewRollback previewFailStack 1).result =
      .error ("preview failed: " ++ "preview-blew-up") ∧
    (PreviewRollback previewFailStack 1).trace.filter isImportCall =
      [BackendCall.Import ⟨2, .object [("resource", "state")]⟩,
       BackendCall.Import ⟨2, .object [("resource", "state")]⟩] :=
  previewRollback_preview_error_propagates previewFailStack 1
    ⟨2, .object [("resource", "state")]⟩ ⟨2, .object [("resource", "state")]⟩
    [BackendCall.History, BackendCall.Export] "preview-blew-up"
    rfl (by decide) (by decide) (by decide) rfl

/-- C6 witness: with history `[version 1]` and target version 99 the
preview flow fails with the wrapped version-not-found error, makes no
mutating backend call, and `Import` is never invoked. -/
theorem previewRollback_early_failure_no_mutation_witness :
    (PreviewRollback versionMissingStack 99).trace.filter isMutatingCall = [] ∧
    (PreviewRollback versionMissingStack 99).result =
      .error "failed to get checkpoint for version 99: version 99 not found in history" ∧
    (PreviewRollback versionMissingStack 99).trace.filter isImportCall = [] := by
  refine ⟨(previewRollback_early_failure_no_mutation versionMissingStack 99 ?_).1,
    by decide, by decide⟩
  exact Or.inr (Or.inr ⟨rfl, ⟨⟨1, .object [("resource", "state")]⟩, rfl⟩,
    "version 99 not found in history", [BackendCall.History], by decide⟩)

/-- C3 witness (amended claim): on the refresh-failing backend the
execute flow performs exactly one import (the target) and returns the
wrapped refresh error. -/
theorem executeRollback_forward_only_witness :
    (ExecuteRollback refreshFailingStack 1).trace.filter isImportCall =
      [BackendCall.Import ⟨2, .object [("resource", "state")]⟩] ∧
    (ExecuteRollback refreshFailingStack 1).result =
      .error ("refresh failed: " ++ "boom") :=
  ⟨(executeRollback_forward_only refreshFailingStack 1
      ⟨2, .object [("resource", "state")]⟩ [BackendCall.History, BackendCall.Export]
      rfl (by decide) rfl).1,
   (executeRollback_forward_only refreshFailingStack 1
      ⟨2, .object [("resource", "state")]⟩ [BackendCall.History, BackendCall.Export]
      rfl (by decide) rfl).2.2.2.1 "boom" rfl⟩

/-- C7 witness: history versions 5, 2, 1 with target 5 (the latest):
the run is an informational no-op with zero mutating backend calls. -/
theorem runRollback_noop_when_target_is_latest_witness :
    (runRollback latestFiveSelector idleStack "dev" 5 false (.ok "y")).result = .ok () ∧
    (runRollback latestFiveSelector idleStack "dev" 5 false (.ok "y")).output =
      ["Version " ++ toString (5 : Int) ++ " is the current version. No rollback needed."] ∧
    (runRollback latestFiveSelector idleStack "dev" 5 false
        (.ok "y")).trace.filter isMutatingCall = [] :=
  runRollback_noop_when_target_is_latest latestFiveSelector idleStack "dev" 5 false (.ok "y")
    ⟨5, "update", "succeeded", "", []⟩
    [BackendCall.SelectStack, BackendCall.History]
    [BackendCall.SelectStack, BackendCall.History]
    (by decide) (by decide)

end PulumiRollback
